import Mathlib

/-
  Shallow embedding of the auth-service credential, refresh-token and
  password-reset logic of the microservices platform.

  Modelling conventions:
  * Time is milliseconds since the epoch, as a `Nat`; `new Date()` becomes an
    explicit `now` parameter, and JavaScript `Date` comparisons become `Nat`
    comparisons on those millisecond values.
  * Each SQL table becomes a list of rows in a `Store`; a SELECT is a pure
    read of the store, an UPDATE/INSERT is one atomic `Store → Store`
    function.  Operations whose atomicity matters return, besides their
    result, the list of intermediate stores after each successive write
    (one entry per SQL statement executed), so partial failures are the
    proper prefixes of that list.
  * bcrypt is a black box: handlers take the hash function / the compare
    oracle as an explicit function parameter.
  * `crypto.randomBytes` / the uuid library's random source are modelled by
    explicit byte-list parameters (each entry a byte value < 256).
  * JavaScript code that would throw a TypeError on a missing row (reading
    `result.rows[0]` of an empty result) is modelled with `Option`, `none`
    standing for that crash.
-/

/-- One row of `auth_users`: id, lowercase email, password hash, email
verification fields, and the lockout fields. -/
structure AuthUser where
  id : Nat
  email : String
  passwordHash : String
  emailVerified : Bool
  emailVerificationToken : Option String
  emailVerificationExpires : Option Nat
  failedLoginAttempts : Nat
  lockedUntil : Option Nat
  deriving Repr, DecidableEq

/-- One row of `auth_password_resets`. -/
structure ResetRow where
  id : Nat
  userId : Nat
  token : String
  expiresAt : Nat
  used : Bool
  createdAt : Nat
  deriving Repr, DecidableEq

/-- One row of `auth_refresh_tokens`. -/
structure RefreshRow where
  id : Nat
  userId : Nat
  token : String
  expiresAt : Nat
  revoked : Bool
  deriving Repr, DecidableEq

/-- The shared backing store of the auth service. -/
structure Store where
  users : List AuthUser
  resets : List ResetRow
  refreshTokens : List RefreshRow
  deriving Repr, DecidableEq

/-- `SELECT ... FROM auth_users WHERE id = $1` (first matching row). -/
def findUserIn : List AuthUser → Nat → Option AuthUser
  | [], _ => none
  | u :: rest, uid => if u.id = uid then some u else findUserIn rest uid

/-- `SELECT ... FROM auth_users WHERE email = $1` (first matching row). -/
def findByEmailIn : List AuthUser → String → Option AuthUser
  | [], _ => none
  | u :: rest, e => if u.email = e then some u else findByEmailIn rest e

/-- `SELECT ... FROM auth_password_resets WHERE token = $1` (first match). -/
def findResetIn : List ResetRow → String → Option ResetRow
  | [], _ => none
  | r :: rest, t => if r.token = t then some r else findResetIn rest t

/-- `UPDATE auth_users SET ... WHERE id = $1`: apply `f` to every row whose
id matches. -/
def updateUsers (uid : Nat) (f : AuthUser → AuthUser) (l : List AuthUser) :
    List AuthUser :=
  l.map (fun w => if w.id = uid then f w else w)

/-- Config defaults, from the environment-variable fallbacks in the source:
`MAX_LOGIN_ATTEMPTS || 5`. -/
def MAX_LOGIN_ATTEMPTS : Nat := 5

/-- `LOCKOUT_DURATION_MINUTES || 15`. -/
def LOCKOUT_DURATION_MINUTES : Nat := 15

/-- Lockout duration in milliseconds. -/
def LOCKOUT_DURATION_MS : Nat := LOCKOUT_DURATION_MINUTES * 60000

/-- `EMAIL_VERIFICATION_EXPIRY_HOURS || 24`, in milliseconds. -/
def EMAIL_VERIFICATION_EXPIRY_MS : Nat := 24 * 3600000

/-- `PASSWORD_RESET_EXPIRY_HOURS || 1`, in milliseconds. -/
def RESET_TOKEN_EXPIRY_MS : Nat := 3600000

/-- Refresh-token TTL: `expiresInDays = 30`, in milliseconds. -/
def REFRESH_TOKEN_EXPIRY_MS : Nat := 30 * 86400000

/-- `Math.ceil((lockedUntil - now) / (1000 * 60))` for `now < lockedUntil`,
on millisecond timestamps. -/
def remainingMinutesOf (lu now : Nat) : Nat := (lu - now + 59999) / 60000

/-- Lowercase hex digit for a value below 16 (the encoding used both by
`Buffer.toString('hex')` and by the uuid library's byte table). -/
def hexDigitChar (n : Nat) : Char :=
  if n < 10 then Char.ofNat (48 + n) else Char.ofNat (87 + n)

/-- The two lowercase hex characters of one byte. -/
def byteHexChars (b : Nat) : List Char :=
  [hexDigitChar (b / 16 % 16), hexDigitChar (b % 16)]

/-- `Buffer.from(bytes).toString('hex')`. -/
def hexEncode (bs : List Nat) : String :=
  ⟨(bs.map byteHexChars).flatten⟩

/-- `uuidv4()` from the uuid library: 16 random bytes, with the version
nibble of byte 6 forced to 4 and the two top bits of byte 8 forced to 10,
formatted 8-4-4-4-12 with dashes. Any argument that is not exactly 16
bytes yields the empty string (unreachable for the real random source). -/
def uuidv4 (bs : List Nat) : String :=
  match bs with
  | [b0, b1, b2, b3, b4, b5, b6, b7, b8, b9, b10, b11, b12, b13, b14, b15] =>
    hexEncode [b0, b1, b2, b3] ++ "-" ++ hexEncode [b4, b5] ++ "-" ++
      hexEncode [b6 % 16 + 64, b7] ++ "-" ++ hexEncode [b8 % 64 + 128, b9] ++
      "-" ++ hexEncode [b10, b11, b12, b13, b14, b15]
  | _ => ""

/-- Is `c` a lowercase hex character (`0`-`9` or `a`-`f`)? -/
def isLowerHexChar (c : Char) : Bool :=
  (48 ≤ c.toNat && c.toNat ≤ 57) || (97 ≤ c.toNat && c.toNat ≤ 102)

/-- Is `t` a 64-character lowercase hex string (the shape of a 256-bit
opaque token)? -/
def isHex64 (t : String) : Bool :=
  t.length == 64 && t.data.all isLowerHexChar

/-- `email.toLowerCase()`, character by character (behaves as the
JavaScript call on the ASCII emails this service stores). -/
def lowerEmail (e : String) : String :=
  ⟨e.data.map Char.toLower⟩

namespace User

/-- `User.findByEmail`: lowercases the input and looks the row up. -/
def findByEmail (s : Store) (email : String) : Option AuthUser :=
  findByEmailIn s.users (lowerEmail email)

/-- `User.updatePassword`: one UPDATE setting the password hash. -/
def updatePassword (uid : Nat) (newHash : String) (s : Store) : Store :=
  { s with users := updateUsers uid (fun v => { v with passwordHash := newHash }) s.users }

/-- Result of `User.isAccountLocked`. -/
inductive LockCheck
  | notLocked
  | isLocked (lockedUntil : Nat) (remainingMinutes : Nat)
  deriving Repr, DecidableEq

/-- `User.isAccountLocked`: a pure read of `locked_until`; reports locked
exactly while `now < locked_until`, and performs no write. -/
def isAccountLocked (s : Store) (uid now : Nat) : LockCheck :=
  match findUserIn s.users uid with
  | none => .notLocked
  | some u =>
    match u.lockedUntil with
    | none => .notLocked
    | some lu =>
      if now < lu then .isLocked lu (remainingMinutesOf lu now) else .notLocked

/-- The first UPDATE of `recordFailedLoginAttempt`:
`failed_login_attempts = COALESCE(failed_login_attempts, 0) + 1`. -/
def incrementFailedAttempts (uid : Nat) (s : Store) : Store :=
  { s with users := updateUsers uid (fun v => { v with failedLoginAttempts := v.failedLoginAttempts + 1 }) s.users }

/-- The second UPDATE of `recordFailedLoginAttempt`: `locked_until = $1`. -/
def setLockedUntil (uid lu : Nat) (s : Store) : Store :=
  { s with users := updateUsers uid (fun v => { v with lockedUntil := some lu }) s.users }

/-- Return value of `User.recordFailedLoginAttempt`: either
`{ locked: true, lockedUntil }` or `{ locked: false, attemptsRemaining }`. -/
inductive LockResult
  | lockedNow (lockedUntil : Nat)
  | notLocked (attemptsRemaining : Nat)
  deriving Repr, DecidableEq

/-- `User.recordFailedLoginAttempt`: increments the counter in one atomic
UPDATE ... RETURNING, then — if the incremented counter reaches the
threshold — sets `locked_until` in a second, separate UPDATE.  The returned
list holds the store after each successive write.  `none` models the crash
on a missing row. -/
def recordFailedLoginAttempt (s : Store) (uid now : Nat) :
    Option (LockResult × List Store) :=
  let s1 := incrementFailedAttempts uid s
  match findUserIn s1.users uid with
  | none => none
  | some u =>
    if u.failedLoginAttempts ≥ MAX_LOGIN_ATTEMPTS then
      let lu := now + LOCKOUT_DURATION_MS
      some (.lockedNow lu, [s1, setLockedUntil uid lu s1])
    else
      some (.notLocked (MAX_LOGIN_ATTEMPTS - u.failedLoginAttempts), [s1])

/-- `User.resetFailedLoginAttempts`: one UPDATE zeroing the counter and
clearing `locked_until`. -/
def resetFailedLoginAttempts (uid : Nat) (s : Store) : Store :=
  { s with users := updateUsers uid (fun v => { v with failedLoginAttempts := 0, lockedUntil := none }) s.users }

/-- `User.isEmailVerified`: `result.rows[0]?.email_verified ?? false`. -/
def isEmailVerified (s : Store) (uid : Nat) : Bool :=
  match findUserIn s.users uid with
  | none => false
  | some u => u.emailVerified

/-- `User.generateEmailVerificationToken`: 32 random bytes as hex, stored
with its expiry on the credential row (overwriting any prior token). -/
def generateEmailVerificationToken (s : Store) (uid now : Nat) (bs : List Nat) :
    String × Store :=
  let token := hexEncode bs
  (token,
   { s with users := updateUsers uid (fun v =>
       { v with emailVerificationToken := some token,
                emailVerificationExpires := some (now + EMAIL_VERIFICATION_EXPIRY_MS) }) s.users })

/-- `SELECT ... FROM auth_users WHERE email_verification_token = $1`. -/
def findByVerificationTokenIn : List AuthUser → String → Option AuthUser
  | [], _ => none
  | u :: rest, t =>
    if u.emailVerificationToken = some t then some u
    else findByVerificationTokenIn rest t

/-- The single success UPDATE of `User.verifyEmail`: set the verified flag
and clear the token and its expiry. -/
def markEmailVerified (uid : Nat) (s : Store) : Store :=
  { s with users := updateUsers uid (fun v =>
      { v with emailVerified := true, emailVerificationToken := none,
               emailVerificationExpires := none }) s.users }

/-- Result of `User.verifyEmail`. -/
inductive VerifyResult
  | failure (reason : String)
  | success (userId : Nat) (email : String)
  deriving Repr, DecidableEq

/-- `User.verifyEmail`: reasons in the order not-found → already verified →
expired; on success one single UPDATE (`markEmailVerified`).  The second
component lists the store after each write.  `new Date(null)` is epoch 0,
so a null expiry with a live token would count as expired, as in the
source. -/
def verifyEmail (s : Store) (t : String) (now : Nat) : VerifyResult × List Store :=
  match findByVerificationTokenIn s.users t with
  | none => (.failure "Invalid verification token", [])
  | some u =>
    if u.emailVerified then (.failure "Email already verified", [])
    else if u.emailVerificationExpires.getD 0 < now then
      (.failure "Verification token has expired", [])
    else (.success u.id u.email, [markEmailVerified u.id s])

end User

namespace PasswordReset

/-- `PasswordReset.invalidateForUser`: one UPDATE marking used every unused
token of the credential. -/
def invalidateForUser (uid : Nat) (s : Store) : Store :=
  { s with resets := s.resets.map (fun r => if r.userId = uid ∧ r.used = false then { r with used := true } else r) }

/-- `PasswordReset.create`: first invalidates all previously unused tokens
for the credential, then inserts a fresh 32-byte hex token expiring in one
hour.  Returns the inserted row and the final store. -/
def create (s : Store) (uid now newId : Nat) (bs : List Nat) : ResetRow × Store :=
  let s1 := invalidateForUser uid s
  let row : ResetRow :=
    { id := newId, userId := uid, token := hexEncode bs,
      expiresAt := now + RESET_TOKEN_EXPIRY_MS, used := false, createdAt := now }
  (row, { s1 with resets := s1.resets ++ [row] })

/-- `PasswordReset.findByToken`: the token row joined with its owning
credential row (the SQL JOIN yields a row only when the owner exists). -/
def findByToken (s : Store) (t : String) : Option (ResetRow × AuthUser) :=
  match findResetIn s.resets t with
  | none => none
  | some r =>
    match findUserIn s.users r.userId with
    | none => none
    | some u => some (r, u)

/-- Result of `PasswordReset.validateToken`. -/
inductive ValidateResult
  | invalid (reason : String)
  | valid (userId : Nat) (email : String)
  deriving Repr, DecidableEq

/-- `PasswordReset.validateToken`: not found → already used → expired →
valid, in that order; expiry is strict (`expires_at < now`). -/
def validateToken (s : Store) (t : String) (now : Nat) : ValidateResult :=
  match findByToken s t with
  | none => .invalid "Token not found"
  | some (r, u) =>
    if r.used then .invalid "Token has already been used"
    else if r.expiresAt < now then .invalid "Token has expired"
    else .valid r.userId u.email

/-- `PasswordReset.markAsUsed`: one UPDATE setting `used = TRUE` on the row
with the given token. -/
def markAsUsed (t : String) (s : Store) : Store :=
  { s with resets := s.resets.map (fun r => if r.token = t then { r with used := true } else r) }

end PasswordReset

namespace RefreshToken

/-- `RefreshToken.create`: the token string is `uuidv4()` over 16 random
bytes, the expiry 30 days out; the row is inserted non-revoked. -/
def create (s : Store) (uid now newId : Nat) (bs : List Nat) : RefreshRow × Store :=
  let row : RefreshRow :=
    { id := newId, userId := uid, token := uuidv4 bs,
      expiresAt := now + REFRESH_TOKEN_EXPIRY_MS, revoked := false }
  (row, { s with refreshTokens := s.refreshTokens ++ [row] })

/-- `RefreshToken.revoke`: one UPDATE setting `revoked = TRUE` on the rows
with the given token; no error when nothing matches. -/
def revoke (t : String) (s : Store) : Store :=
  { s with refreshTokens := s.refreshTokens.map (fun r => if r.token = t then { r with revoked := true } else r) }

/-- `RefreshToken.revokeAllForUser`: one UPDATE revoking every non-revoked
token of the credential. -/
def revokeAllForUser (uid : Nat) (s : Store) : Store :=
  { s with refreshTokens := s.refreshTokens.map (fun r => if r.userId = uid ∧ r.revoked = false then { r with revoked := true } else r) }

end RefreshToken

/-- Error taxonomy used by the route handlers (`@platform/errors`). -/
inductive ErrKind
  | unauthorized
  | tooManyRequests
  | badRequest
  | conflict
  deriving Repr, DecidableEq

/-- An error thrown at the request boundary: its kind (HTTP class) and its
human-readable message. -/
structure AppError where
  kind : ErrKind
  message : String
  deriving Repr, DecidableEq

/-- Observable outcome of `POST /auth/signin`. -/
inductive SigninOutcome
  | failure (e : AppError)
  | success (userId : Nat) (emailVerified : Bool) (refreshToken : String)
  deriving Repr, DecidableEq

/-- Full observable result of one signin request: the outcome, whether
`bcrypt.compare` was invoked at all, and the final store. -/
structure SigninRes where
  outcome : SigninOutcome
  comparedPassword : Bool
  store : Store
  deriving Repr, DecidableEq

/-- The `POST /auth/signin` handler: find by normalized email, lockout
pre-check, password comparison (`pwMatches` is the bcrypt oracle), failure
recording with possible lock, and on success reset of the failure counter
plus creation of a refresh token.  `none` models the crash on a vanished
row. -/
def signinHandler (pwMatches : String → String → Bool) (s : Store)
    (email password : String) (now newRid : Nat) (bs : List Nat) :
    Option SigninRes :=
  match User.findByEmail s email with
  | none => some ⟨.failure ⟨.unauthorized, "Invalid email or password"⟩, false, s⟩
  | some user =>
    match User.isAccountLocked s user.id now with
    | .isLocked _ rm =>
      some ⟨.failure ⟨.tooManyRequests,
        "Account is locked. Try again in " ++ toString rm ++ " minutes."⟩, false, s⟩
    | .notLocked =>
      if pwMatches password user.passwordHash then
        let s1 := User.resetFailedLoginAttempts user.id s
        let rs := RefreshToken.create s1 user.id now newRid bs
        some ⟨.success user.id (User.isEmailVerified rs.2 user.id) rs.1.token, true, rs.2⟩
      else
        match User.recordFailedLoginAttempt s user.id now with
        | none => none
        | some (.lockedNow _, ws) =>
          some ⟨.failure ⟨.tooManyRequests,
            "Account locked due to too many failed attempts. Try again in " ++
              toString LOCKOUT_DURATION_MINUTES ++ " minutes."⟩, true, ws.getLastD s⟩
        | some (.notLocked remaining, ws) =>
          some ⟨.failure ⟨.unauthorized,
            "Invalid email or password. " ++ toString remaining ++
              " attempts remaining."⟩, true, ws.getLastD s⟩

/-- Observable outcome of `POST /auth/reset-password`. -/
inductive ResetOutcome
  | badRequest (reason : String)
  | ok
  deriving Repr, DecidableEq

/-- The `POST /auth/reset-password` handler: validate, then four separate
sequential store writes — update the password hash, mark the token used,
revoke all refresh tokens of the credential, reset the lockout state — with
no enclosing transaction.  The second component lists the store after each
successive write, so a failure partway leaves one of those intermediate
stores. -/
def resetPasswordHandler (hash : String → String) (s : Store)
    (t pw : String) (now : Nat) : ResetOutcome × List Store :=
  match PasswordReset.validateToken s t now with
  | .invalid reason => (.badRequest reason, [])
  | .valid uid _ =>
    let s1 := User.updatePassword uid (hash pw) s
    let s2 := PasswordReset.markAsUsed t s1
    let s3 := RefreshToken.revokeAllForUser uid s2
    let s4 := User.resetFailedLoginAttempts uid s3
    (.ok, [s1, s2, s3, s4])

/-- Is the reset row with this token marked used in this store? -/
def resetTokenUsed (s : Store) (t : String) : Bool :=
  s.resets.any (fun r => r.token == t && r.used)

/-- The stored password hash of the credential, when its row exists. -/
def storedPasswordHash (s : Store) (uid : Nat) : Option String :=
  (findUserIn s.users uid).map (fun u => u.passwordHash)

/- Shared lemmas about the store primitives. -/

/-- Updating rows by id commutes with the first-match lookup by id, for any
field transform that keeps the id. -/
theorem findUserIn_updateUsers (l : List AuthUser) (uid : Nat)
    (f : AuthUser → AuthUser) (hf : ∀ v, (f v).id = v.id) :
    findUserIn (updateUsers uid f l) uid = (findUserIn l uid).map f := by
  induction l with
  | nil => rfl
  | cons a as ih =>
    by_cases hid : a.id = uid
    · simp [updateUsers, findUserIn, hid, hf]
    · simp only [updateUsers, List.map_cons] at ih ⊢
      rw [if_neg hid]
      simp [findUserIn, hid, ih]

/-- Rows of an updated user table come from rows of the original one. -/
theorem mem_updateUsers (l : List AuthUser) (uid : Nat)
    (f : AuthUser → AuthUser) (v : AuthUser) (hv : v ∈ updateUsers uid f l) :
    ∃ w ∈ l, v = if w.id = uid then f w else w := by
  simp only [updateUsers, List.mem_map] at hv
  obtain ⟨w, hw, hvw⟩ := hv
  exact ⟨w, hw, hvw.symm⟩

/-- Claim C7: `PasswordReset.validateToken` reports its reason in the fixed
priority order not-found (no stored token row matches) → already-used
(`used` flag set) → expired (`expires_at` strictly before now) → valid with
the owning credential id; in particular a token both used and expired
reports already-used, since the `used` check precedes the expiry check.
The reason strings of the source stand for the spec labels: "Token not
found" = not_found, "Token has already been used" = already_used, "Token
has expired" = expired.  The owner hypothesis reflects the SQL JOIN with
`auth_users`, which the FK cascade makes total for live rows. -/
theorem C7_validateToken_priority (s : Store) (t : String) (now : Nat) :
    (findResetIn s.resets t = none →
      PasswordReset.validateToken s t now = .invalid "Token not found")
  ∧ (∀ r u, findResetIn s.resets t = some r →
      findUserIn s.users r.userId = some u →
      (r.used = true →
        PasswordReset.validateToken s t now = .invalid "Token has already been used")
    ∧ (r.used = false → r.expiresAt < now →
        PasswordReset.validateToken s t now = .invalid "Token has expired")
    ∧ (r.used = false → ¬ r.expiresAt < now →
        PasswordReset.validateToken s t now = .valid r.userId u.email)) := by
  constructor
  · intro h
    simp [PasswordReset.validateToken, PasswordReset.findByToken, h]
  · intro r u hr hu
    refine ⟨fun hused => ?_, fun hused hexp => ?_, fun hused hexp => ?_⟩
    · simp [PasswordReset.validateToken, PasswordReset.findByToken, hr, hu, hused]
    · simp [PasswordReset.validateToken, PasswordReset.findByToken, hr, hu, hused, hexp]
    · simp [PasswordReset.validateToken, PasswordReset.findByToken, hr, hu, hused, hexp]

/-- Concrete instantiation of C7: an unknown token is not-found, and a
token that is both used and expired reports already-used. -/
theorem C7_validateToken_priority_witness :
    PasswordReset.validateToken
      ⟨[⟨1, "alice@example.com", "h", false, none, none, 0, none⟩],
       [⟨1, 1, "tok", 50, true, 0⟩], []⟩ "zzz" 99 = .invalid "Token not found"
  ∧ PasswordReset.validateToken
      ⟨[⟨1, "alice@example.com", "h", false, none, none, 0, none⟩],
       [⟨1, 1, "tok", 50, true, 0⟩], []⟩ "tok" 99 = .invalid "Token has already been used" :=
  ⟨(C7_validateToken_priority
      ⟨[⟨1, "alice@example.com", "h", false, none, none, 0, none⟩],
       [⟨1, 1, "tok", 50, true, 0⟩], []⟩ "zzz" 99).1 (by decide),
   ((C7_validateToken_priority
      ⟨[⟨1, "alice@example.com", "h", false, none, none, 0, none⟩],
       [⟨1, 1, "tok", 50, true, 0⟩], []⟩ "tok" 99).2
      ⟨1, 1, "tok", 50, true, 0⟩
      ⟨1, "alice@example.com", "h", false, none, none, 0, none⟩
      (by decide) (by decide)).1 rfl⟩

/-- Claim C9: `RefreshToken.revoke` is idempotent and total — revoking the
same token again changes nothing further, and revoking a token no stored
row carries leaves the store exactly as it was (no error, no side
effect). -/
theorem C9_revoke_idempotent (s : Store) (t : String) :
    RefreshToken.revoke t (RefreshToken.revoke t s) = RefreshToken.revoke t s
  ∧ ((∀ r ∈ s.refreshTokens, r.token ≠ t) → RefreshToken.revoke t s = s) := by
  constructor
  · simp only [RefreshToken.revoke, List.map_map]
    have hff : ((fun r : RefreshRow => if r.token = t then { r with revoked := true } else r) ∘
        fun r => if r.token = t then { r with revoked := true } else r) =
        fun r => if r.token = t then { r with revoked := true } else r := by
      funext r
      by_cases h : r.token = t
      · simp [h]
      · simp [h]
    rw [hff]
  · intro h
    have hmap : ∀ l : List RefreshRow, (∀ r ∈ l, r.token ≠ t) →
        l.map (fun r => if r.token = t then { r with revoked := true } else r) = l := by
      intro l hl
      induction l with
      | nil => rfl
      | cons a as ih =>
        simp only [List.map_cons]
        rw [if_neg (hl a (by simp)), ih (fun r hr => hl r (by simp [hr]))]
    show { s with refreshTokens := _ } = s
    rw [hmap s.refreshTokens h]

/-- Concrete instantiation of C9: double revocation of a live token, and
revocation of a token that matches no row. -/
theorem C9_revoke_idempotent_witness :
    RefreshToken.revoke "zzz"
        (RefreshToken.revoke "zzz" ⟨[], [], [⟨1, 1, "tok", 100, false⟩]⟩)
      = RefreshToken.revoke "zzz" ⟨[], [], [⟨1, 1, "tok", 100, false⟩]⟩
  ∧ RefreshToken.revoke "zzz" ⟨[], [], [⟨1, 1, "tok", 100, false⟩]⟩
      = ⟨[], [], [⟨1, 1, "tok", 100, false⟩]⟩ :=
  ⟨(C9_revoke_idempotent ⟨[], [], [⟨1, 1, "tok", 100, false⟩]⟩ "zzz").1,
   (C9_revoke_idempotent ⟨[], [], [⟨1, 1, "tok", 100, false⟩]⟩ "zzz").2 (by decide)⟩

/-- Computation of `recordFailedLoginAttempt` in terms of the credential row
it starts from: the counter increment is the first write, and the lock —
when the incremented counter reaches the threshold — a second one. -/
theorem recordFailed_spec (s : Store) (uid now : Nat) (u : AuthUser)
    (hfu : findUserIn s.users uid = some u) :
    User.recordFailedLoginAttempt s uid now =
      if MAX_LOGIN_ATTEMPTS ≤ u.failedLoginAttempts + 1 then
        some (.lockedNow (now + LOCKOUT_DURATION_MS),
          [User.incrementFailedAttempts uid s,
           User.setLockedUntil uid (now + LOCKOUT_DURATION_MS)
             (User.incrementFailedAttempts uid s)])
      else
        some (.notLocked (MAX_LOGIN_ATTEMPTS - (u.failedLoginAttempts + 1)),
          [User.incrementFailedAttempts uid s]) := by
  have hstep : findUserIn (User.incrementFailedAttempts uid s).users uid =
      some { u with failedLoginAttempts := u.failedLoginAttempts + 1 } := by
    show findUserIn (updateUsers uid
      (fun v => { v with failedLoginAttempts := v.failedLoginAttempts + 1 }) s.users) uid = _
    rw [findUserIn_updateUsers s.users uid
      (fun v => { v with failedLoginAttempts := v.failedLoginAttempts + 1 }) (fun v => rfl), hfu]
    rfl
  simp only [User.recordFailedLoginAttempt, hstep]

/-- Claim C2 as stated is false: on the locking attempt the code does not
set `locked_until` in the same update as the increment.  This is the
negation of "whenever `recordFailedLoginAttempt` locks, its write trace is
one single store write"; at the concrete input the trace has two writes,
and after the first the counter already reads 5 while `locked_until` is
still NULL. -/
theorem C2_counterexample :
    ¬ (∀ (s : Store) (uid now lu : Nat) (ws : List Store),
        User.recordFailedLoginAttempt s uid now =
          some (.lockedNow lu, ws) → ws.length = 1) := by
  intro h
  have h2 := h ⟨[⟨1, "alice@example.com", "hashA", false, none, none, 4, none⟩], [], []⟩
    1 0 900000
    [⟨[⟨1, "alice@example.com", "hashA", false, none, none, 5, none⟩], [], []⟩,
     ⟨[⟨1, "alice@example.com", "hashA", false, none, none, 5, some 900000⟩], [], []⟩]
    (by decide)
  exact absurd h2 (by decide)

/-- Claim C2 amended: `recordFailedLoginAttempt` increments the counter in
one atomic update; while the incremented counter is below the threshold
(default 5) it returns `{locked:false, attemptsRemaining = threshold -
attempts}` with that increment as its only write, and on the attempt where
the counter reaches or exceeds the threshold it returns `{locked:true,
lockedUntil = now + 15 minutes}` but sets `locked_until` in a second,
separate update issued after the increment — not in the same update. -/
theorem C2_recordFailedLoginAttempt (s : Store) (uid now : Nat) (u : AuthUser)
    (hfu : findUserIn s.users uid = some u) :
    (u.failedLoginAttempts + 1 < MAX_LOGIN_ATTEMPTS →
      User.recordFailedLoginAttempt s uid now =
        some (.notLocked (MAX_LOGIN_ATTEMPTS - (u.failedLoginAttempts + 1)),
          [User.incrementFailedAttempts uid s]))
  ∧ (MAX_LOGIN_ATTEMPTS ≤ u.failedLoginAttempts + 1 →
      User.recordFailedLoginAttempt s uid now =
        some (.lockedNow (now + LOCKOUT_DURATION_MS),
          [User.incrementFailedAttempts uid s,
           User.setLockedUntil uid (now + LOCKOUT_DURATION_MS)
             (User.incrementFailedAttempts uid s)])) := by
  constructor
  · intro hlt
    rw [recordFailed_spec s uid now u hfu, if_neg (by omega)]
  · intro hge
    rw [recordFailed_spec s uid now u hfu, if_pos hge]

/-- Concrete instantiation of the amended C2: a first failure answers 4
attempts remaining; a fifth failure locks until now + 15 minutes. -/
theorem C2_recordFailedLoginAttempt_witness :
    User.recordFailedLoginAttempt
        ⟨[⟨1, "alice@example.com", "hashA", false, none, none, 0, none⟩], [], []⟩ 1 0 =
      some (.notLocked 4,
        [User.incrementFailedAttempts 1
          ⟨[⟨1, "alice@example.com", "hashA", false, none, none, 0, none⟩], [], []⟩])
  ∧ User.recordFailedLoginAttempt
        ⟨[⟨1, "alice@example.com", "hashA", false, none, none, 4, none⟩], [], []⟩ 1 20 =
      some (.lockedNow (20 + LOCKOUT_DURATION_MS),
        [User.incrementFailedAttempts 1
          ⟨[⟨1, "alice@example.com", "hashA", false, none, none, 4, none⟩], [], []⟩,
         User.setLockedUntil 1 (20 + LOCKOUT_DURATION_MS)
          (User.incrementFailedAttempts 1
            ⟨[⟨1, "alice@example.com", "hashA", false, none, none, 4, none⟩], [], []⟩)]) := by
  exact ⟨(C2_recordFailedLoginAttempt
      ⟨[⟨1, "alice@example.com", "hashA", false, none, none, 0, none⟩], [], []⟩ 1 0
      ⟨1, "alice@example.com", "hashA", false, none, none, 0, none⟩ rfl).1 (by decide),
    (C2_recordFailedLoginAttempt
      ⟨[⟨1, "alice@example.com", "hashA", false, none, none, 4, none⟩], [], []⟩ 1 20
      ⟨1, "alice@example.com", "hashA", false, none, none, 4, none⟩ rfl).2 (by decide)⟩

/-- Lookup after the increment write. -/
theorem findUserIn_incrementFailedAttempts (s : Store) (uid : Nat) (u : AuthUser)
    (hfu : findUserIn s.users uid = some u) :
    findUserIn (User.incrementFailedAttempts uid s).users uid =
      some { u with failedLoginAttempts := u.failedLoginAttempts + 1 } := by
  show findUserIn (updateUsers uid
    (fun v => { v with failedLoginAttempts := v.failedLoginAttempts + 1 }) s.users) uid = _
  rw [findUserIn_updateUsers s.users uid
    (fun v => { v with failedLoginAttempts := v.failedLoginAttempts + 1 }) (fun v => rfl), hfu]
  rfl

/-- Lookup after the lock write. -/
theorem findUserIn_setLockedUntil (s : Store) (uid lu : Nat) (u : AuthUser)
    (hfu : findUserIn s.users uid = some u) :
    findUserIn (User.setLockedUntil uid lu s).users uid =
      some { u with lockedUntil := some lu } := by
  show findUserIn (updateUsers uid
    (fun v => { v with lockedUntil := some lu }) s.users) uid = _
  rw [findUserIn_updateUsers s.users uid
    (fun v => { v with lockedUntil := some lu }) (fun v => rfl), hfu]
  rfl

/-- Claim C10: after a lock whose `locked_until` has lapsed (`now ≥
locked_until`) with no intervening reset, the failed-attempt counter the
code reads still holds its pre-lock value at or above the threshold, the
pre-check stops reporting locked (with no stored change — it is a pure
read), and a single further failed attempt immediately re-locks with a
fresh `locked_until = now + lockoutDuration`, returning `{locked:true}`
rather than any `{locked:false, attemptsRemaining}` grace result. -/
theorem C10_relock_after_lapse (s : Store) (uid t0 now : Nat) (u : AuthUser)
    (hfu : findUserIn s.users uid = some u)
    (hth : MAX_LOGIN_ATTEMPTS ≤ u.failedLoginAttempts + 1)
    (hlapse : t0 + LOCKOUT_DURATION_MS ≤ now) :
    User.recordFailedLoginAttempt s uid t0 =
      some (.lockedNow (t0 + LOCKOUT_DURATION_MS),
        [User.incrementFailedAttempts uid s,
         User.setLockedUntil uid (t0 + LOCKOUT_DURATION_MS)
           (User.incrementFailedAttempts uid s)])
  ∧ findUserIn (User.setLockedUntil uid (t0 + LOCKOUT_DURATION_MS)
        (User.incrementFailedAttempts uid s)).users uid =
      some { u with failedLoginAttempts := u.failedLoginAttempts + 1,
                    lockedUntil := some (t0 + LOCKOUT_DURATION_MS) }
  ∧ User.isAccountLocked (User.setLockedUntil uid (t0 + LOCKOUT_DURATION_MS)
        (User.incrementFailedAttempts uid s)) uid now = .notLocked
  ∧ User.recordFailedLoginAttempt (User.setLockedUntil uid (t0 + LOCKOUT_DURATION_MS)
        (User.incrementFailedAttempts uid s)) uid now =
      some (.lockedNow (now + LOCKOUT_DURATION_MS),
        [User.incrementFailedAttempts uid
           (User.setLockedUntil uid (t0 + LOCKOUT_DURATION_MS)
             (User.incrementFailedAttempts uid s)),
         User.setLockedUntil uid (now + LOCKOUT_DURATION_MS)
           (User.incrementFailedAttempts uid
             (User.setLockedUntil uid (t0 + LOCKOUT_DURATION_MS)
               (User.incrementFailedAttempts uid s)))]) := by
  have h1 := findUserIn_incrementFailedAttempts s uid u hfu
  have h2 := findUserIn_setLockedUntil _ uid (t0 + LOCKOUT_DURATION_MS) _ h1
  refine ⟨?_, h2, ?_, ?_⟩
  · rw [recordFailed_spec s uid t0 u hfu, if_pos hth]
  · simp only [User.isAccountLocked, h2]
    rw [if_neg (by omega)]
  · rw [recordFailed_spec _ uid now _ h2]
    split
    · rfl
    · next h =>
      refine absurd ?_ h
      simp only []
      omega

/-- Concrete instantiation of C10: a fifth failure at time 0 locks until
900000 ms (15 minutes); at `now = 900000` the pre-check reports not locked,
yet the very next failed attempt re-locks until `now + 15` minutes. -/
theorem C10_relock_after_lapse_witness :
    User.isAccountLocked
        (User.setLockedUntil 1 (0 + LOCKOUT_DURATION_MS)
          (User.incrementFailedAttempts 1
            ⟨[⟨1, "alice@example.com", "hashA", false, none, none, 4, none⟩], [], []⟩))
        1 900000 = .notLocked
  ∧ User.recordFailedLoginAttempt
        (User.setLockedUntil 1 (0 + LOCKOUT_DURATION_MS)
          (User.incrementFailedAttempts 1
            ⟨[⟨1, "alice@example.com", "hashA", false, none, none, 4, none⟩], [], []⟩))
        1 900000 =
      some (.lockedNow (900000 + LOCKOUT_DURATION_MS),
        [User.incrementFailedAttempts 1
           (User.setLockedUntil 1 (0 + LOCKOUT_DURATION_MS)
             (User.incrementFailedAttempts 1
               ⟨[⟨1, "alice@example.com", "hashA", false, none, none, 4, none⟩], [], []⟩)),
         User.setLockedUntil 1 (900000 + LOCKOUT_DURATION_MS)
           (User.incrementFailedAttempts 1
             (User.setLockedUntil 1 (0 + LOCKOUT_DURATION_MS)
               (User.incrementFailedAttempts 1
                 ⟨[⟨1, "alice@example.com", "hashA", false, none, none, 4, none⟩], [], []⟩)))]) := by
  exact ⟨(C10_relock_after_lapse
      ⟨[⟨1, "alice@example.com", "hashA", false, none, none, 4, none⟩], [], []⟩ 1 0 900000
      ⟨1, "alice@example.com", "hashA", false, none, none, 4, none⟩ rfl (by decide) (by decide)).2.2.1,
    (C10_relock_after_lapse
      ⟨[⟨1, "alice@example.com", "hashA", false, none, none, 4, none⟩], [], []⟩ 1 0 900000
      ⟨1, "alice@example.com", "hashA", false, none, none, 4, none⟩ rfl (by decide) (by decide)).2.2.2⟩

/-- Claim C4: while `now < locked_until` the pre-check returns
`{locked:true, remainingMinutes}` and the signin handler fails with
TooManyRequests without invoking the password comparison
(`comparedPassword = false`) and without any stored state change (the final
store is the input store); once `now ≥ locked_until` the pre-check returns
`{locked:false}` — itself a pure read, so no stored transition happens. -/
theorem C4_lockout_precheck (pw : String → String → Bool) (s : Store)
    (e p : String) (u : AuthUser) (lu now now2 newRid : Nat) (bs : List Nat)
    (hfe : User.findByEmail s e = some u)
    (hfu : findUserIn s.users u.id = some u)
    (hlu : u.lockedUntil = some lu) :
    (now < lu →
      User.isAccountLocked s u.id now = .isLocked lu (remainingMinutesOf lu now)
      ∧ signinHandler pw s e p now newRid bs =
          some ⟨.failure ⟨.tooManyRequests,
            "Account is locked. Try again in " ++
              toString (remainingMinutesOf lu now) ++ " minutes."⟩, false, s⟩)
  ∧ (lu ≤ now2 → User.isAccountLocked s u.id now2 = .notLocked) := by
  constructor
  · intro h
    have hlk : User.isAccountLocked s u.id now = .isLocked lu (remainingMinutesOf lu now) := by
      simp only [User.isAccountLocked, hfu, hlu]
      rw [if_pos h]
    refine ⟨hlk, ?_⟩
    simp only [signinHandler, hfe, hlk]
  · intro h2
    simp only [User.isAccountLocked, hfu, hlu]
    rw [if_neg (by omega)]

/-- Concrete instantiation of C4: locked until 900000 ms, checked at 100 ms
(15 minutes remain, signin short-circuits on the unchanged store) and at
900000 ms (no longer reported locked). -/
theorem C4_lockout_precheck_witness :
    (User.isAccountLocked
        ⟨[⟨1, "alice@example.com", "hashA", false, none, none, 5, some 900000⟩], [], []⟩
        1 100 = .isLocked 900000 (remainingMinutesOf 900000 100)
      ∧ signinHandler (fun q _ => q == "secret")
          ⟨[⟨1, "alice@example.com", "hashA", false, none, none, 5, some 900000⟩], [], []⟩
          "alice@example.com" "secret" 100 7 [] =
          some ⟨.failure ⟨.tooManyRequests,
            "Account is locked. Try again in " ++
              toString (remainingMinutesOf 900000 100) ++ " minutes."⟩, false,
            ⟨[⟨1, "alice@example.com", "hashA", false, none, none, 5, some 900000⟩], [], []⟩⟩)
  ∧ User.isAccountLocked
        ⟨[⟨1, "alice@example.com", "hashA", false, none, none, 5, some 900000⟩], [], []⟩
        1 900000 = .notLocked := by
  exact ⟨(C4_lockout_precheck (fun q _ => q == "secret")
      ⟨[⟨1, "alice@example.com", "hashA", false, none, none, 5, some 900000⟩], [], []⟩
      "alice@example.com" "secret"
      ⟨1, "alice@example.com", "hashA", false, none, none, 5, some 900000⟩
      900000 100 900000 7 [] (by decide) rfl rfl).1 (by decide),
    (C4_lockout_precheck (fun q _ => q == "secret")
      ⟨[⟨1, "alice@example.com", "hashA", false, none, none, 5, some 900000⟩], [], []⟩
      "alice@example.com" "secret"
      ⟨1, "alice@example.com", "hashA", false, none, none, 5, some 900000⟩
      900000 100 900000 7 [] (by decide) rfl rfl).2 (by decide)⟩

/-- Claim C6 as stated is false: a lookup failure and a wrong password do
not produce the same error response.  This is the negation of "when the
email is absent and when the password is wrong for an existing credential,
signin fails with the same error"; at the concrete input the absent email
yields the message "Invalid email or password" while the wrong password
yields "Invalid email or password. 4 attempts remaining.", so the response
body does disclose that the email exists. -/
theorem C6_counterexample :
    ¬ (∀ (pw : String → String → Bool) (s : Store) (e1 e2 p : String)
        (now rid : Nat) (bs : List Nat) (u : AuthUser) (r1 r2 : SigninRes),
        User.findByEmail s e1 = none →
        User.findByEmail s e2 = some u →
        pw p u.passwordHash = false →
        signinHandler pw s e1 p now rid bs = some r1 →
        signinHandler pw s e2 p now rid bs = some r2 →
        r1.outcome = r2.outcome) := by
  intro h
  have h2 := h (fun q _ => q == "secret")
    ⟨[⟨1, "alice@example.com", "hashA", false, none, none, 0, none⟩], [], []⟩
    "ghost@example.com" "alice@example.com" "wrong" 0 7 []
    ⟨1, "alice@example.com", "hashA", false, none, none, 0, none⟩
    ⟨.failure ⟨.unauthorized, "Invalid email or password"⟩, false,
      ⟨[⟨1, "alice@example.com", "hashA", false, none, none, 0, none⟩], [], []⟩⟩
    ⟨.failure ⟨.unauthorized, "Invalid email or password. 4 attempts remaining."⟩, true,
      ⟨[⟨1, "alice@example.com", "hashA", false, none, none, 1, none⟩], [], []⟩⟩
    (by decide) (by decide) (by decide) (by decide) (by decide)
  exact absurd h2 (by decide)

/-- Claim C6 amended: an absent email and a wrong password for an existing,
unlocked credential both fail with the same error kind — UnauthorizedError
(HTTP 401) — but with different messages: the absent-email response says
"Invalid email or password" while the wrong-password response appends the
remaining-attempt count, so the response bodies differ and the email's
existence is disclosed by the body (only the error kind is generic). -/
theorem C6_error_kinds (pw : String → String → Bool) (s : Store)
    (e1 e2 p : String) (now rid : Nat) (bs : List Nat) (u : AuthUser)
    (h1 : User.findByEmail s e1 = none)
    (hfe : User.findByEmail s e2 = some u)
    (hfu : findUserIn s.users u.id = some u)
    (hnl : u.lockedUntil = none)
    (hpw : pw p u.passwordHash = false)
    (hbelow : u.failedLoginAttempts + 1 < MAX_LOGIN_ATTEMPTS) :
    signinHandler pw s e1 p now rid bs =
      some ⟨.failure ⟨.unauthorized, "Invalid email or password"⟩, false, s⟩
  ∧ signinHandler pw s e2 p now rid bs =
      some ⟨.failure ⟨.unauthorized,
        "Invalid email or password. " ++
          toString (MAX_LOGIN_ATTEMPTS - (u.failedLoginAttempts + 1)) ++
          " attempts remaining."⟩, true, User.incrementFailedAttempts u.id s⟩ := by
  constructor
  · simp [signinHandler, h1]
  · have hlk : User.isAccountLocked s u.id now = .notLocked := by
      simp [User.isAccountLocked, hfu, hnl]
    have hrec := recordFailed_spec s u.id now u hfu
    rw [if_neg (by omega)] at hrec
    simp only [signinHandler, hfe, hlk, hpw, hrec]
    simp [List.getLastD]

/-- Concrete instantiation of the amended C6: both responses carry kind
UnauthorizedError, with the wrong-password message appending "4 attempts
remaining.". -/
theorem C6_error_kinds_witness :
    signinHandler (fun q _ => q == "secret")
        ⟨[⟨1, "alice@example.com", "hashA", false, none, none, 0, none⟩], [], []⟩
        "ghost@example.com" "wrong" 0 7 [] =
      some ⟨.failure ⟨.unauthorized, "Invalid email or password"⟩, false,
        ⟨[⟨1, "alice@example.com", "hashA", false, none, none, 0, none⟩], [], []⟩⟩
  ∧ signinHandler (fun q _ => q == "secret")
        ⟨[⟨1, "alice@example.com", "hashA", false, none, none, 0, none⟩], [], []⟩
        "alice@example.com" "wrong" 0 7 [] =
      some ⟨.failure ⟨.unauthorized,
        "Invalid email or password. " ++ toString (MAX_LOGIN_ATTEMPTS - (0 + 1)) ++
          " attempts remaining."⟩, true,
        User.incrementFailedAttempts 1
          ⟨[⟨1, "alice@example.com", "hashA", false, none, none, 0, none⟩], [], []⟩⟩ := by
  exact ⟨(C6_error_kinds (fun q _ => q == "secret")
      ⟨[⟨1, "alice@example.com", "hashA", false, none, none, 0, none⟩], [], []⟩
      "ghost@example.com" "alice@example.com" "wrong" 0 7 []
      ⟨1, "alice@example.com", "hashA", false, none, none, 0, none⟩
      (by decide) (by decide) rfl rfl (by decide) (by decide)).1,
    (C6_error_kinds (fun q _ => q == "secret")
      ⟨[⟨1, "alice@example.com", "hashA", false, none, none, 0, none⟩], [], []⟩
      "ghost@example.com" "alice@example.com" "wrong" 0 7 []
      ⟨1, "alice@example.com", "hashA", false, none, none, 0, none⟩
      (by decide) (by decide) rfl rfl (by decide) (by decide)).2⟩

/-- Claim C8: `User.verifyEmail` reports its reason in the fixed order
invalid-token (no credential carries the token) → already-verified →
expired, and on success performs exactly one store update
(`markEmailVerified`, the single write of its trace) which sets the
verified flag and clears both the token and its expiry on the credential
row.  The reason strings of the source stand for the spec labels:
"Invalid verification token" = invalid_token, "Email already verified" =
already_verified, "Verification token has expired" = expired. -/
theorem C8_verifyEmail_reasons (s : Store) (t : String) (now : Nat) :
    (User.findByVerificationTokenIn s.users t = none →
      User.verifyEmail s t now = (.failure "Invalid verification token", []))
  ∧ (∀ u, User.findByVerificationTokenIn s.users t = some u →
      (u.emailVerified = true →
        User.verifyEmail s t now = (.failure "Email already verified", []))
    ∧ (u.emailVerified = false → u.emailVerificationExpires.getD 0 < now →
        User.verifyEmail s t now = (.failure "Verification token has expired", []))
    ∧ (u.emailVerified = false → ¬ u.emailVerificationExpires.getD 0 < now →
        User.verifyEmail s t now = (.success u.id u.email, [User.markEmailVerified u.id s])
      ∧ ∀ v ∈ (User.markEmailVerified u.id s).users, v.id = u.id →
          v.emailVerified = true ∧ v.emailVerificationToken = none ∧
            v.emailVerificationExpires = none)) := by
  constructor
  · intro h
    simp [User.verifyEmail, h]
  · intro u hu
    refine ⟨fun hv => ?_, fun hv hexp => ?_, fun hv hexp => ⟨?_, ?_⟩⟩
    · simp [User.verifyEmail, hu, hv]
    · simp [User.verifyEmail, hu, hv, hexp]
    · simp [User.verifyEmail, hu, hv, hexp]
    · intro v hv2 hvid
      obtain ⟨w, hw, hveq⟩ := mem_updateUsers s.users u.id _ v hv2
      by_cases hwid : w.id = u.id
      · rw [if_pos hwid] at hveq
        subst hveq
        exact ⟨rfl, rfl, rfl⟩
      · rw [if_neg hwid] at hveq
        subst hveq
        exact absurd hvid hwid

/-- Concrete instantiation of C8: a live unexpired token verifies with a
single update that sets the flag and clears token and expiry; an unknown
token is invalid. -/
theorem C8_verifyEmail_reasons_witness :
    User.verifyEmail
        ⟨[⟨1, "alice@example.com", "hashA", false, some "vtok", some 1000, 0, none⟩], [], []⟩
        "zzz" 500 = (.failure "Invalid verification token", [])
  ∧ User.verifyEmail
        ⟨[⟨1, "alice@example.com", "hashA", false, some "vtok", some 1000, 0, none⟩], [], []⟩
        "vtok" 500 =
      (.success 1 "alice@example.com",
        [User.markEmailVerified 1
          ⟨[⟨1, "alice@example.com", "hashA", false, some "vtok", some 1000, 0, none⟩], [], []⟩]) := by
  exact ⟨(C8_verifyEmail_reasons
      ⟨[⟨1, "alice@example.com", "hashA", false, some "vtok", some 1000, 0, none⟩], [], []⟩
      "zzz" 500).1 (by decide),
    (((C8_verifyEmail_reasons
      ⟨[⟨1, "alice@example.com", "hashA", false, some "vtok", some 1000, 0, none⟩], [], []⟩
      "vtok" 500).2 ⟨1, "alice@example.com", "hashA", false, some "vtok", some 1000, 0, none⟩
      (by decide)).2.2 rfl (by decide)).1⟩

/-- Claim C1 as stated is false: the reset-password handler issues its four
writes as separate sequential store updates with no transaction, so a
failure after the first write leaves the password changed while the token
is still unmarked.  This is the negation of "at every intermediate state of
the handler the token is marked used exactly when the password has
changed"; at the concrete input, the state after the first write has the
new password hash but `used = FALSE` on the token row. -/
theorem C1_counterexample :
    ¬ (∀ (hash : String → String) (s : Store) (t p : String) (now uid : Nat)
        (em : String) (w : Store),
        PasswordReset.validateToken s t now = .valid uid em →
        w ∈ (resetPasswordHandler hash s t p now).2 →
        (resetTokenUsed w t = true ↔
          storedPasswordHash w uid ≠ storedPasswordHash s uid)) := by
  intro h
  have h2 := h (fun _ => "newhash")
    ⟨[⟨1, "alice@example.com", "oldhash", false, none, none, 0, none⟩],
     [⟨1, 1, "rtok", 100, false, 0⟩], []⟩
    "rtok" "NewPass1" 50 1 "alice@example.com"
    (User.updatePassword 1 "newhash"
      ⟨[⟨1, "alice@example.com", "oldhash", false, none, none, 0, none⟩],
       [⟨1, 1, "rtok", 100, false, 0⟩], []⟩)
    (by decide) (by decide)
  exact absurd (h2.mpr (by decide)) (by decide)

/-- Claim C1 amended: on a valid reset token the handler performs, in
order and as four separate sequential updates with no enclosing
transaction, the password-hash update, the marking of the token as used,
the revocation of all the credential's refresh tokens, and the reset of
its lockout state; when all four complete, the final store has the new
password hash and a zeroed, unlocked lockout state on the credential, the
token marked used, and every refresh token of the credential revoked — but
a failure between the first and second write leaves the password changed
with the token still unused (see the counterexample). -/
theorem C1_reset_password_full_run (hash : String → String) (s : Store)
    (t p : String) (now uid : Nat) (em : String)
    (hv : PasswordReset.validateToken s t now = .valid uid em) :
    resetPasswordHandler hash s t p now =
      (.ok, [User.updatePassword uid (hash p) s,
        PasswordReset.markAsUsed t (User.updatePassword uid (hash p) s),
        RefreshToken.revokeAllForUser uid
          (PasswordReset.markAsUsed t (User.updatePassword uid (hash p) s)),
        User.resetFailedLoginAttempts uid
          (RefreshToken.revokeAllForUser uid
            (PasswordReset.markAsUsed t (User.updatePassword uid (hash p) s)))])
  ∧ (∀ v ∈ (User.resetFailedLoginAttempts uid
        (RefreshToken.revokeAllForUser uid
          (PasswordReset.markAsUsed t (User.updatePassword uid (hash p) s)))).users,
        v.id = uid →
        v.passwordHash = hash p ∧ v.failedLoginAttempts = 0 ∧ v.lockedUntil = none)
  ∧ (∀ r ∈ (User.resetFailedLoginAttempts uid
        (RefreshToken.revokeAllForUser uid
          (PasswordReset.markAsUsed t (User.updatePassword uid (hash p) s)))).resets,
        r.token = t → r.used = true)
  ∧ (∀ rt ∈ (User.resetFailedLoginAttempts uid
        (RefreshToken.revokeAllForUser uid
          (PasswordReset.markAsUsed t (User.updatePassword uid (hash p) s)))).refreshTokens,
        rt.userId = uid → rt.revoked = true) := by
  refine ⟨?_, ?_, ?_, ?_⟩
  · simp only [resetPasswordHandler, hv]
  · intro v hv2 hvid
    have hvu : v ∈ updateUsers uid
        (fun w => { w with failedLoginAttempts := 0, lockedUntil := none })
        (updateUsers uid (fun w => { w with passwordHash := hash p }) s.users) := hv2
    obtain ⟨w, hw, hveq⟩ := mem_updateUsers _ _ _ _ hvu
    obtain ⟨x, hx, hweq⟩ := mem_updateUsers _ _ _ _ hw
    by_cases hxid : x.id = uid
    · rw [if_pos hxid] at hweq
      subst hweq
      rw [if_pos hxid] at hveq
      subst hveq
      exact ⟨rfl, rfl, rfl⟩
    · rw [if_neg hxid] at hweq
      subst hweq
      rw [if_neg hxid] at hveq
      subst hveq
      exact absurd hvid hxid
  · intro r hr hrt
    have hru : r ∈ s.resets.map
        (fun q => if q.token = t then { q with used := true } else q) := hr
    obtain ⟨w, hw, hweq⟩ := List.mem_map.mp hru
    by_cases hwt : w.token = t
    · rw [if_pos hwt] at hweq
      subst hweq
      rfl
    · rw [if_neg hwt] at hweq
      subst hweq
      exact absurd hrt hwt
  · intro rt hrt hrtu
    have hru : rt ∈ s.refreshTokens.map
        (fun q => if q.userId = uid ∧ q.revoked = false then { q with revoked := true } else q) := hrt
    obtain ⟨w, hw, hweq⟩ := List.mem_map.mp hru
    by_cases hwc : w.userId = uid ∧ w.revoked = false
    · rw [if_pos hwc] at hweq
      subst hweq
      rfl
    · rw [if_neg hwc] at hweq
      subst hweq
      rcases Decidable.not_and_iff_or_not.mp hwc with hcase | hcase
      · exact absurd hrtu hcase
      · cases hrev : w.revoked
        · exact absurd hrev hcase
        · rfl

/-- Concrete instantiation of the amended C1: the full run on a valid token
produces exactly the four sequential writes, and the final store has the
token marked used. -/
theorem C1_reset_password_full_run_witness :
    resetPasswordHandler (fun _ => "newhash")
        ⟨[⟨1, "alice@example.com", "oldhash", false, none, none, 3, some 40⟩],
         [⟨1, 1, "rtok", 100, false, 0⟩], [⟨9, 1, "refresh-1", 500, false⟩]⟩
        "rtok" "NewPass1" 50 =
      (.ok, [User.updatePassword 1 "newhash"
          ⟨[⟨1, "alice@example.com", "oldhash", false, none, none, 3, some 40⟩],
           [⟨1, 1, "rtok", 100, false, 0⟩], [⟨9, 1, "refresh-1", 500, false⟩]⟩,
        PasswordReset.markAsUsed "rtok" (User.updatePassword 1 "newhash"
          ⟨[⟨1, "alice@example.com", "oldhash", false, none, none, 3, some 40⟩],
           [⟨1, 1, "rtok", 100, false, 0⟩], [⟨9, 1, "refresh-1", 500, false⟩]⟩),
        RefreshToken.revokeAllForUser 1
          (PasswordReset.markAsUsed "rtok" (User.updatePassword 1 "newhash"
            ⟨[⟨1, "alice@example.com", "oldhash", false, none, none, 3, some 40⟩],
             [⟨1, 1, "rtok", 100, false, 0⟩], [⟨9, 1, "refresh-1", 500, false⟩]⟩)),
        User.resetFailedLoginAttempts 1
          (RefreshToken.revokeAllForUser 1
            (PasswordReset.markAsUsed "rtok" (User.updatePassword 1 "newhash"
              ⟨[⟨1, "alice@example.com", "oldhash", false, none, none, 3, some 40⟩],
               [⟨1, 1, "rtok", 100, false, 0⟩], [⟨9, 1, "refresh-1", 500, false⟩]⟩)))])
  ∧ (∀ r ∈ (User.resetFailedLoginAttempts 1
        (RefreshToken.revokeAllForUser 1
          (PasswordReset.markAsUsed "rtok" (User.updatePassword 1 "newhash"
            ⟨[⟨1, "alice@example.com", "oldhash", false, none, none, 3, some 40⟩],
             [⟨1, 1, "rtok", 100, false, 0⟩], [⟨9, 1, "refresh-1", 500, false⟩]⟩)))).resets,
        r.token = "rtok" → r.used = true) := by
  exact ⟨(C1_reset_password_full_run (fun _ => "newhash")
      ⟨[⟨1, "alice@example.com", "oldhash", false, none, none, 3, some 40⟩],
       [⟨1, 1, "rtok", 100, false, 0⟩], [⟨9, 1, "refresh-1", 500, false⟩]⟩
      "rtok" "NewPass1" 50 1 "alice@example.com" (by decide)).1,
    (C1_reset_password_full_run (fun _ => "newhash")
      ⟨[⟨1, "alice@example.com", "oldhash", false, none, none, 3, some 40⟩],
       [⟨1, 1, "rtok", 100, false, 0⟩], [⟨9, 1, "refresh-1", 500, false⟩]⟩
      "rtok" "NewPass1" 50 1 "alice@example.com" (by decide)).2.2.1⟩

/-- A token found in the left part of an appended reset table is what the
lookup on the whole table returns. -/
theorem findResetIn_append_left (l1 l2 : List ResetRow) (t : String) (r : ResetRow)
    (h : findResetIn l1 t = some r) : findResetIn (l1 ++ l2) t = some r := by
  induction l1 with
  | nil => simp [findResetIn] at h
  | cons a as ih =>
    rw [List.cons_append]
    by_cases hat : a.token = t
    · rw [findResetIn, if_pos hat] at h ⊢
      exact h
    · rw [findResetIn, if_neg hat] at h ⊢
      exact ih h

/-- After `invalidateForUser`, looking up the token of a row that was the
unique carrier of its token finds that row, invalidated. -/
theorem findResetIn_invalidate (l : List ResetRow) (uid : Nat) (A : ResetRow)
    (hA : A ∈ l) (huniq : ∀ r ∈ l, r.token = A.token → r = A) :
    findResetIn (l.map (fun r =>
        if r.userId = uid ∧ r.used = false then { r with used := true } else r)) A.token
      = some (if A.userId = uid ∧ A.used = false then { A with used := true } else A) := by
  induction l with
  | nil => cases hA
  | cons a as ih =>
    have htok : (if a.userId = uid ∧ a.used = false then
        { a with used := true } else a).token = a.token := by
      split <;> rfl
    rw [List.map_cons]
    by_cases hat : a.token = A.token
    · have haA : a = A := huniq a (List.mem_cons_self a as) hat
      subst haA
      rw [findResetIn, if_pos (htok.trans hat)]
    · have hAas : A ∈ as := by
        rcases List.mem_cons.mp hA with h | h
        · exact absurd (h ▸ rfl) hat
        · exact h
      rw [findResetIn, if_neg (fun hc => hat (htok.symm.trans hc))]
      exact ih hAas (fun r hr => huniq r (List.mem_cons_of_mem a hr))

/-- Claim C3: `PasswordReset.create` first marks used every previously
unused token of the credential and only then inserts the new one, so (a)
in the resulting store the only unused reset row of the credential is the
newly inserted one — at most one usable token per credential — and (b)
validating a token A that was unused when token B was issued reports
already-used (so neither not-found nor valid).  The uniqueness hypothesis
is the table's unique token index; the owner hypothesis is the JOIN with
`auth_users`. -/
theorem C3_single_usable_reset_token (s : Store) (uid now newId now2 : Nat)
    (bs : List Nat) (A : ResetRow) (owner : AuthUser)
    (hA : A ∈ s.resets) (hAu : A.userId = uid) (hAunused : A.used = false)
    (huniq : ∀ r ∈ s.resets, r.token = A.token → r = A)
    (howner : findUserIn s.users A.userId = some owner) :
    (∀ r ∈ (PasswordReset.create s uid now newId bs).2.resets,
        r.userId = uid → r.used = false →
        r = (PasswordReset.create s uid now newId bs).1)
  ∧ PasswordReset.validateToken (PasswordReset.create s uid now newId bs).2 A.token now2 =
      .invalid "Token has already been used" := by
  constructor
  · intro r hr hru hrun
    have hr2 : r ∈ (s.resets.map (fun q =>
        if q.userId = uid ∧ q.used = false then { q with used := true } else q)) ++
        [(PasswordReset.create s uid now newId bs).1] := hr
    rcases List.mem_append.mp hr2 with hleft | hright
    · obtain ⟨w, hw, hweq⟩ := List.mem_map.mp hleft
      by_cases hwc : w.userId = uid ∧ w.used = false
      · rw [if_pos hwc] at hweq
        subst hweq
        exact absurd hrun (by simp)
      · rw [if_neg hwc] at hweq
        subst hweq
        exact absurd hwc (by exact fun hn => hn ⟨hru, hrun⟩)
    · simpa using hright
  · have hg : findResetIn (PasswordReset.create s uid now newId bs).2.resets A.token =
        some { A with used := true } := by
      show findResetIn ((s.resets.map (fun q =>
        if q.userId = uid ∧ q.used = false then { q with used := true } else q)) ++ _) A.token = _
      apply findResetIn_append_left
      rw [findResetIn_invalidate s.resets uid A hA huniq, if_pos ⟨hAu, hAunused⟩]
    simp only [PasswordReset.validateToken, PasswordReset.findByToken, hg]
    have hu2 : findUserIn (PasswordReset.create s uid now newId bs).2.users
        ({ A with used := true } : ResetRow).userId = some owner := howner
    rw [hu2]
    simp

/-- Concrete instantiation of C3: issuing a second reset token marks the
first one used, and validating the first then reports already-used. -/
theorem C3_single_usable_reset_token_witness :
    (∀ r ∈ (PasswordReset.create
        ⟨[⟨1, "alice@example.com", "hashA", false, none, none, 0, none⟩],
         [⟨1, 1, "oldtok", 5000, false, 0⟩], []⟩ 1 50 2 [171, 205]).2.resets,
        r.userId = 1 → r.used = false →
        r = (PasswordReset.create
          ⟨[⟨1, "alice@example.com", "hashA", false, none, none, 0, none⟩],
           [⟨1, 1, "oldtok", 5000, false, 0⟩], []⟩ 1 50 2 [171, 205]).1)
  ∧ PasswordReset.validateToken (PasswordReset.create
        ⟨[⟨1, "alice@example.com", "hashA", false, none, none, 0, none⟩],
         [⟨1, 1, "oldtok", 5000, false, 0⟩], []⟩ 1 50 2 [171, 205]).2 "oldtok" 60 =
      .invalid "Token has already been used" := by
  exact C3_single_usable_reset_token
    ⟨[⟨1, "alice@example.com", "hashA", false, none, none, 0, none⟩],
     [⟨1, 1, "oldtok", 5000, false, 0⟩], []⟩ 1 50 2 60 [171, 205]
    ⟨1, 1, "oldtok", 5000, false, 0⟩
    ⟨1, "alice@example.com", "hashA", false, none, none, 0, none⟩
    (by decide) rfl rfl (by decide) rfl

set_option maxRecDepth 4000 in
/-- `hexDigitChar` is injective on digit values. -/
theorem hexDigitChar_fin_inj :
    ∀ x y : Fin 16, hexDigitChar x.val = hexDigitChar y.val → x = y := by decide

/-- `hexDigitChar` is injective below 16. -/
theorem hexDigitChar_inj (a b : Nat) (ha : a < 16) (hb : b < 16)
    (h : hexDigitChar a = hexDigitChar b) : a = b :=
  congrArg Fin.val (hexDigitChar_fin_inj ⟨a, ha⟩ ⟨b, hb⟩ h)

/-- The two hex characters of a byte determine the byte. -/
theorem byteHexChars_inj (a b : Nat) (ha : a < 256) (hb : b < 256)
    (h : byteHexChars a = byteHexChars b) : a = b := by
  simp only [byteHexChars, List.cons.injEq, and_true] at h
  obtain ⟨h1, h2⟩ := h
  have e1 : a / 16 % 16 = b / 16 % 16 :=
    hexDigitChar_inj _ _ (Nat.mod_lt _ (by norm_num)) (Nat.mod_lt _ (by norm_num)) h1
  have e2 : a % 16 = b % 16 :=
    hexDigitChar_inj _ _ (Nat.mod_lt _ (by norm_num)) (Nat.mod_lt _ (by norm_num)) h2
  omega

set_option maxRecDepth 8000 in
/-- Both hex characters of any byte are lowercase hex characters. -/
theorem byteHexChars_all_hex :
    ∀ x : Fin 256, (byteHexChars x.val).all isLowerHexChar = true := by decide

/-- Character count of the hex encoding: two per byte. -/
theorem hexChars_length (bs : List Nat) :
    ((bs.map byteHexChars).flatten).length = 2 * bs.length := by
  induction bs with
  | nil => rfl
  | cons a as ih =>
    simp only [List.map_cons, List.flatten_cons, List.length_append, ih,
      List.length_cons, byteHexChars]
    simp
    omega

/-- `hexEncode` yields two characters per byte. -/
theorem hexEncode_length (bs : List Nat) : (hexEncode bs).length = 2 * bs.length :=
  hexChars_length bs

/-- Every character of the hex encoding of bytes is lowercase hex. -/
theorem hexChars_all_hex (bs : List Nat) :
    (∀ b ∈ bs, b < 256) → ((bs.map byteHexChars).flatten).all isLowerHexChar = true := by
  induction bs with
  | nil => intro _; rfl
  | cons a as ih =>
    intro hb
    simp only [List.map_cons, List.flatten_cons, List.all_append]
    rw [Bool.and_eq_true]
    exact ⟨byteHexChars_all_hex ⟨a, hb a (List.mem_cons_self a as)⟩,
      ih (fun b hb2 => hb b (List.mem_cons_of_mem a hb2))⟩

/-- The hex encoding is injective on byte lists: the 64-character token
determines all 32 random bytes, so the full 256 bits of entropy survive. -/
theorem hexChars_inj (l1 : List Nat) : ∀ l2 : List Nat,
    (∀ b ∈ l1, b < 256) → (∀ b ∈ l2, b < 256) →
    (l1.map byteHexChars).flatten = (l2.map byteHexChars).flatten → l1 = l2 := by
  induction l1 with
  | nil =>
    intro l2 _ _ h
    cases l2 with
    | nil => rfl
    | cons c cs => exact absurd h (by simp [byteHexChars])
  | cons a as ih =>
    intro l2 h1 h2 h
    cases l2 with
    | nil => exact absurd h (by simp [byteHexChars])
    | cons c cs =>
      simp only [List.map_cons, List.flatten_cons, byteHexChars, List.cons_append,
        List.nil_append, List.cons.injEq] at h
      obtain ⟨ha1, ha2, hrest⟩ := h
      have hac : a = c := byteHexChars_inj a c (h1 a (List.mem_cons_self a as))
        (h2 c (List.mem_cons_self c cs)) (by simp [byteHexChars, ha1, ha2])
      subst hac
      rw [ih cs (fun b hb => h1 b (List.mem_cons_of_mem a hb))
        (fun b hb => h2 b (List.mem_cons_of_mem a hb)) hrest]

/-- Claim C5 as stated is false: refresh tokens are not 256-bit opaque
hex strings.  This is the negation of "every token produced by
`RefreshToken.create` is a 64-character hex string"; at the concrete input
the token is the 36-character UUID "00000000-0000-4000-8000-000000000000",
which contains dashes and a fixed version digit. -/
theorem C5_counterexample :
    ¬ (∀ (s : Store) (uid now rid : Nat) (bs : List Nat),
        bs.length = 16 → (∀ b ∈ bs, b < 256) →
        isHex64 ((RefreshToken.create s uid now rid bs).1.token) = true) := by
  intro h
  have h2 := h ⟨[], [], []⟩ 1 0 1 (List.replicate 16 0) (by decide) (by decide)
  exact absurd h2 (by decide)

/-- Claim C5 amended: password-reset and email-verification tokens are
opaque 64-character lowercase-hex strings that encode their 32 random
bytes injectively (full 256 bits of entropy, no other structure); refresh
tokens instead are 36-character UUIDv4 strings with embedded structure —
dashes, a version digit fixed to 4 — hence not 64-character hex, and the
uuid masking collapses distinct byte inputs (byte 6 keeps only its low
nibble), leaving 122 random bits rather than 256. -/
theorem C5_token_formats (s : Store) (uid now newId : Nat) (bs bs2 : List Nat)
    (b0 b1 b2 b3 b4 b5 b6 b7 b8 b9 b10 b11 b12 b13 b14 b15 : Nat)
    (hbs : ∀ b ∈ bs, b < 256) (hlen : bs.length = 32)
    (hbs2 : ∀ b ∈ bs2, b < 256) :
    ((PasswordReset.create s uid now newId bs).1.token.length = 64
      ∧ (PasswordReset.create s uid now newId bs).1.token.data.all isLowerHexChar = true
      ∧ (User.generateEmailVerificationToken s uid now bs).1 =
          (PasswordReset.create s uid now newId bs).1.token
      ∧ ((PasswordReset.create s uid now newId bs).1.token =
            (PasswordReset.create s uid now newId bs2).1.token → bs = bs2))
  ∧ ((RefreshToken.create s uid now newId
        [b0, b1, b2, b3, b4, b5, b6, b7, b8, b9, b10, b11, b12, b13, b14, b15]).1.token.length = 36
      ∧ (RefreshToken.create s uid now newId
          [b0, b1, b2, b3, b4, b5, b6, b7, b8, b9, b10, b11, b12, b13, b14, b15]).1.token.data.get? 8 =
          some '-'
      ∧ (RefreshToken.create s uid now newId
          [b0, b1, b2, b3, b4, b5, b6, b7, b8, b9, b10, b11, b12, b13, b14, b15]).1.token.data.get? 14 =
          some '4'
      ∧ isHex64 ((RefreshToken.create s uid now newId
          [b0, b1, b2, b3, b4, b5, b6, b7, b8, b9, b10, b11, b12, b13, b14, b15]).1.token) = false)
  ∧ (uuidv4 (List.replicate 16 0) = uuidv4 [0, 0, 0, 0, 0, 0, 16, 0, 0, 0, 0, 0, 0, 0, 0, 0]
      ∧ (List.replicate 16 0 : List Nat) ≠ [0, 0, 0, 0, 0, 0, 16, 0, 0, 0, 0, 0, 0, 0, 0, 0]) := by
  refine ⟨⟨?_, ?_, rfl, ?_⟩, ⟨rfl, rfl, ?_, ?_⟩, by decide, by decide⟩
  · show (hexEncode bs).length = 64
    rw [hexEncode_length, hlen]
  · exact hexChars_all_hex bs hbs
  · intro h
    exact hexChars_inj bs bs2 hbs hbs2 (congrArg String.data h)
  · show some (hexDigitChar ((b6 % 16 + 64) / 16 % 16)) = some (Char.ofNat 52)
    have h4 : (b6 % 16 + 64) / 16 % 16 = 4 := by omega
    rw [h4]
    decide
  · have hl : (RefreshToken.create s uid now newId
        [b0, b1, b2, b3, b4, b5, b6, b7, b8, b9, b10, b11, b12, b13, b14, b15]).1.token.length = 36 := rfl
    simp [isHex64, hl]

/-- Concrete instantiation of the amended C5: a 32-byte reset token has 64
characters; the refresh token over concrete bytes carries the fixed
version digit 4 at position 14 and is not 64-character hex. -/
theorem C5_token_formats_witness :
    (PasswordReset.create ⟨[], [], []⟩ 1 0 2 (List.replicate 32 0)).1.token.length = 64
  ∧ (RefreshToken.create ⟨[], [], []⟩ 1 0 2
        [0, 0, 0, 0, 0, 0, 0, 0, 0, 0, 0, 0, 0, 0, 0, 0]).1.token.data.get? 14 = some '4'
  ∧ isHex64 ((RefreshToken.create ⟨[], [], []⟩ 1 0 2
        [0, 0, 0, 0, 0, 0, 0, 0, 0, 0, 0, 0, 0, 0, 0, 0]).1.token) = false := by
  exact ⟨(C5_token_formats ⟨[], [], []⟩ 1 0 2 (List.replicate 32 0) (List.replicate 32 1)
      0 0 0 0 0 0 0 0 0 0 0 0 0 0 0 0 (by decide) (by decide) (by decide)).1.1,
    (C5_token_formats ⟨[], [], []⟩ 1 0 2 (List.replicate 32 0) (List.replicate 32 1)
      0 0 0 0 0 0 0 0 0 0 0 0 0 0 0 0 (by decide) (by decide) (by decide)).2.1.2.2.1,
    (C5_token_formats ⟨[], [], []⟩ 1 0 2 (List.replicate 32 0) (List.replicate 32 1)
      0 0 0 0 0 0 0 0 0 0 0 0 0 0 0 0 (by decide) (by decide) (by decide)).2.1.2.2.2⟩
